import Mathlib

/-!
Verification development for the GPX drawing tool.

The definitions below are a shallow embedding of the repository's
TypeScript sources:

* `src/services/geoportail.ts` — geometry helpers (`haversineDistance`,
  `distancePointToSegment`, `pointInPolygon`, `calculateBbox`,
  `isLocationInSearchZone`), the elevation resolver (`fetchElevations` /
  `fetchWithRetry`), the Overpass response scan (`processXmlNodes`,
  `processXmlWays`), `searchAddress`, `searchLocationsNearPath`, and the
  `RequestQueue` scheduler;
* `src/composables/useDrawing.ts` — the layers store (`addNote`,
  `deleteNote`, `getElement`, `validateCircle`, `loadLayers`, …).

Modelling conventions: JavaScript numbers are real numbers (`ℝ`) except in
parts proved by evaluation, where the source's arithmetic is exactly
representable and `ℚ` is used; fallible operations return `Except`;
network effects are made explicit through a response oracle passed as an
argument, and each outbound request is recorded in a returned request
list; JavaScript `Map`s become association lists preserving insertion
order; `console.warn` becomes an appended warnings list.
-/

namespace Geoportail

/-- A latitude/longitude pair in decimal degrees (the `{lat, lon}` objects
of `geoportail.ts`). -/
structure Coordinate where
  lat : ℝ
  lon : ℝ
deriving Inhabited

/-- Model of JavaScript `Math.atan2 y x` (two-argument arctangent). -/
noncomputable def atan2 (y x : ℝ) : ℝ :=
  if 0 < x then Real.arctan (y / x)
  else if x < 0 ∧ 0 ≤ y then Real.arctan (y / x) + Real.pi
  else if x < 0 ∧ y < 0 then Real.arctan (y / x) - Real.pi
  else if x = 0 ∧ 0 < y then Real.pi / 2
  else if x = 0 ∧ y < 0 then -(Real.pi / 2)
  else 0

/-- Function `haversineDistance` of `geoportail.ts` (lines 237-253): great-circle
distance between two points in kilometers, Earth radius 6371 km. -/
noncomputable def haversineDistance (point1 point2 : Coordinate) : ℝ :=
  let R : ℝ := 6371
  let lat1 := point1.lat * Real.pi / 180
  let lat2 := point2.lat * Real.pi / 180
  let dLat := (point2.lat - point1.lat) * Real.pi / 180
  let dLon := (point2.lon - point1.lon) * Real.pi / 180
  let a :=
    Real.sin (dLat / 2) * Real.sin (dLat / 2) +
      Real.cos lat1 * Real.cos lat2 * Real.sin (dLon / 2) * Real.sin (dLon / 2)
  let c := 2 * atan2 (Real.sqrt a) (Real.sqrt (1 - a))
  R * c

/-- JavaScript `Math.min(...list)` over a nonempty argument list.  (For the
empty list `Math.min()` yields `Infinity`; the source only applies it to a
three-element list, so the empty case is given an arbitrary value.) -/
def mathMin : List ℝ → ℝ
  | [] => 0
  | x :: xs => xs.foldl min x

/-- Function `distancePointToSegment` of `geoportail.ts` (lines 258-274): the
minimum of the haversine distances from the point to the segment start,
the segment end, and the segment midpoint. -/
noncomputable def distancePointToSegment (point segStart segEnd : Coordinate) : ℝ :=
  let distances : List ℝ :=
    [haversineDistance point segStart, haversineDistance point segEnd]
  let mid : Coordinate :=
    ⟨(segStart.lat + segEnd.lat) / 2, (segStart.lon + segEnd.lon) / 2⟩
  let distances := distances ++ [haversineDistance point mid]
  mathMin distances

/-- The GeoJSON-ish argument of `pointInPolygon`: a bare polygon (a list of
rings, each a list of `[lon, lat]` pairs), a feature wrapping a geometry,
or any other value (which the source rejects). -/
inductive GeoJson (α : Type) where
  | polygon (coordinates : List (List (α × α)))
  | feature (geometry : GeoJson α)
  | other

variable {α : Type} [LinearOrderedField α]

/-- One iteration of the ray-casting loop of `pointInPolygon`: the edge is
the pair `(exterior[i], exterior[j])` and the test is
`yi > y !== yj > y && x < ((xj - xi) * (y - yi)) / (yj - yi) + xi`.
(Lean's total field division by zero returns 0, but the division is only
reached when `yi > y` and `yj > y` differ, which forces `yj ≠ yi`, exactly
as JavaScript's short-circuiting `&&` guards it.) -/
def edgeCrossing (x y : α) (e : (α × α) × (α × α)) : Bool :=
  let xi := e.1.1
  let yi := e.1.2
  let xj := e.2.1
  let yj := e.2.2
  (decide (yi > y) != decide (yj > y)) &&
    decide (x < (xj - xi) * (y - yi) / (yj - yi) + xi)

/-- The `(exterior[i], exterior[j])` pairs visited by the loop
`for (let i = 0, j = exterior.length - 1; i < exterior.length; j = i++)`:
the i-th pair is `(e i, e (i-1))`, with `j` starting at the last index. -/
def raycastPairs (exterior : List (α × α)) : List ((α × α) × (α × α)) :=
  match exterior.getLast? with
  | none => []
  | some lastv => exterior.zip (lastv :: exterior)

/-- The ray-casting loop body of `pointInPolygon`: `isInside` starts false
and is negated on every crossing edge. -/
def raycast (x y : α) (exterior : List (α × α)) : Bool :=
  (raycastPairs exterior).foldl
    (fun isInside e => if edgeCrossing x y e then !isInside else isInside) false

/-- Shared body of the two accepted shapes of `pointInPolygon`: take the
exterior ring (`coords[0]`) and ray-cast against it; a missing exterior
yields false. -/
def pointInPolygonCoords (point : α × α) (coords : List (List (α × α))) : Bool :=
  match coords.head? with
  | none => false
  | some exterior => raycast point.1 point.2 exterior

/-- Function `pointInPolygon` of `geoportail.ts` (lines 282-315): accepts a bare
`Polygon` or a `Feature` wrapping a `Polygon`; anything else (including a
feature wrapping a non-polygon) yields false. -/
def pointInPolygon (point : α × α) (polygon : GeoJson α) : Bool :=
  match polygon with
  | .polygon coordinates => pointInPolygonCoords point coordinates
  | .feature (.polygon coordinates) => pointInPolygonCoords point coordinates
  | _ => false

/-- Result of `calculateBbox` (`geoportail.ts` lines 206-232).  The source
returns the string `minLon,minLat,maxLon,maxLat`, which the caller splits
and re-parses; the round trip is modelled structurally. -/
structure Bbox where
  minLon : ℝ
  minLat : ℝ
  maxLon : ℝ
  maxLat : ℝ

/-- Function `calculateBbox`: min/max over the point set, expanded by
`bufferKm / 111.32` degrees.  (For an empty point list the source returns
the empty string, whose re-parse yields NaN sentinels; that case is
unreachable behind the guard of `searchLocationsNearPath` and is given an
arbitrary value here.) -/
noncomputable def calculateBbox (points : List Coordinate) (bufferKm : ℝ) : Bbox :=
  match points with
  | [] => ⟨0, 0, 0, 0⟩
  | p :: _ =>
    let start : Bbox := ⟨p.lon, p.lat, p.lon, p.lat⟩
    let folded := points.foldl
      (fun acc q =>
        ⟨min acc.minLon q.lon, min acc.minLat q.lat,
         max acc.maxLon q.lon, max acc.maxLat q.lat⟩)
      start
    let bufferDegrees := bufferKm / 111.32
    ⟨folded.minLon - bufferDegrees, folded.minLat - bufferDegrees,
     folded.maxLon + bufferDegrees, folded.maxLat + bufferDegrees⟩

/-- Function `isLocationInSearchZone` (`geoportail.ts` lines 411-431).  The local
`minDist` starts at `Infinity`, modelled by `⊤` in `WithTop ℝ`; the
comparison `Infinity <= searchDistanceKm` is false exactly as `⊤ ≤ ↑r`
is. -/
noncomputable def isLocationInSearchZone (resultCoords : Coordinate)
    (pathPoints : List Coordinate) (searchDistanceKm : ℝ)
    (bufferPolygon : Option (GeoJson ℝ)) : Bool :=
  match bufferPolygon with
  | some poly => pointInPolygon (resultCoords.lon, resultCoords.lat) poly
  | none =>
    let minDist : WithTop ℝ :=
      if pathPoints.length = 1 then
        ↑(haversineDistance resultCoords (pathPoints.headD default))
      else
        (pathPoints.zip pathPoints.tail).foldl
          (fun m q => min m ↑(distancePointToSegment resultCoords q.1 q.2)) ⊤
    decide (minDist ≤ (searchDistanceKm : WithTop ℝ))

/-- JavaScript truthiness of an optional string (`undefined`, `null` and
the empty string are falsy). -/
def optStringTruthy : Option String → Bool
  | none => false
  | some s => decide (s ≠ "")

/-- JavaScript `a || b` for an optional string left operand. -/
def jsOrString (a : Option String) (b : String) : String :=
  match a with
  | some s => if s = "" then b else s
  | none => b

/-- Tag lookup over an element's tag list: the value attribute of the
first tag with the given key (the source's `querySelector` on `tag[k=...]`
followed by `getAttribute('v')`). -/
def tagValue (tags : List (String × String)) (k : String) : Option String :=
  (tags.find? fun t => t.1 == k).map (·.2)

/-- Function `getTypeValueFromElement` (`geoportail.ts` lines 391-406): first truthy
value among the place/amenity/tourism/natural/historic tags, else `''`. -/
def getTypeValueFromElement (tags : List (String × String)) : String :=
  jsOrString (tagValue tags "place")
    (jsOrString (tagValue tags "amenity")
      (jsOrString (tagValue tags "tourism")
        (jsOrString (tagValue tags "natural")
          (jsOrString (tagValue tags "historic") ""))))

/-- Structure `AddressSearchResult` of `geoportail.ts`. -/
structure AddressSearchResult where
  main : String
  secondary : Option String
  coordinates : Coordinate
  type? : Option String
  elevation : Option ℤ

/-- The deduplication map of `searchLocationsNearPath`: a JavaScript `Map`
keyed by the composite `name_lon_lat` string, modelled as an association
list in insertion order keyed by the triple. -/
abbrev RMap : Type := List ((String × ℝ × ℝ) × AddressSearchResult)

/-- Membership test of the deduplication map. -/
noncomputable def rmapHas (m : RMap) (k : String × ℝ × ℝ) : Bool :=
  m.any fun p => decide (p.1 = k)

/-- Function `addLocationToResults` (`geoportail.ts` lines 436-452): insert under
the `(name, lon, lat)` key unless already present (first occurrence
wins). -/
noncomputable def addLocationToResults (results : RMap) (name : String)
    (lon lat : ℝ) (typeValue : String) : RMap :=
  let key : String × ℝ × ℝ := (name, lon, lat)
  if rmapHas results key then results
  else
    results ++ [(key,
      { main := name
        secondary := if typeValue = "" then none else some typeValue
        coordinates := ⟨lat, lon⟩
        type? := if typeValue = "" then none else some typeValue
        elevation := none })]

/-- A `<node>` element of the Overpass XML response, after attribute
parsing: `lat`/`lon` are the values of
`Number.parseFloat(node.getAttribute('lat') || '0')`, `name` the value
attribute of the `tag[k="name"]` child when present. -/
structure XmlNode where
  lat : ℝ
  lon : ℝ
  name : Option String
  tags : List (String × String)

/-- A `<way>` element of the Overpass XML response: `center` is the parsed
`<center>` child when present. -/
structure XmlWay where
  center : Option Coordinate
  name : Option String
  tags : List (String × String)

/-- Function `processXmlNodes` (`geoportail.ts` lines 457-479).  The acceptance
guard is the source's `if (name && lat && lon)`: the name must be truthy
and both parsed numbers nonzero. -/
noncomputable def processXmlNodes (nodes : List XmlNode) (results : RMap)
    (pathPoints : List Coordinate) (searchDistanceKm : ℝ)
    (bufferPolygon : Option (GeoJson ℝ)) : RMap :=
  nodes.foldl
    (fun results node =>
      let name := node.name
      let typeValue := getTypeValueFromElement node.tags
      if optStringTruthy name && decide (node.lat ≠ 0) && decide (node.lon ≠ 0) then
        let resultCoords : Coordinate := ⟨node.lat, node.lon⟩
        if isLocationInSearchZone resultCoords pathPoints searchDistanceKm bufferPolygon then
          addLocationToResults results (name.getD "") node.lon node.lat typeValue
        else results
      else results)
    results

/-- Function `processXmlWays` (`geoportail.ts` lines 484-509): like the node scan
but only for ways carrying a `<center>` child. -/
noncomputable def processXmlWays (ways : List XmlWay) (results : RMap)
    (pathPoints : List Coordinate) (searchDistanceKm : ℝ)
    (bufferPolygon : Option (GeoJson ℝ)) : RMap :=
  ways.foldl
    (fun results way =>
      match way.center with
      | none => results
      | some c =>
        let name := way.name
        let typeValue := getTypeValueFromElement way.tags
        if optStringTruthy name && decide (c.lat ≠ 0) && decide (c.lon ≠ 0) then
          let resultCoords : Coordinate := ⟨c.lat, c.lon⟩
          if isLocationInSearchZone resultCoords pathPoints searchDistanceKm bufferPolygon then
            addLocationToResults results (name.getD "") c.lon c.lat typeValue
          else results
        else results)
    results

/-- The string-key formats tried by the elevation correlation code: the
6-decimal `toFixed(6)` format, the 5-decimal `toFixed(5)` format, and the
plain printing of `Math.round(x * 1_000_000) / 1_000_000`.  A key is
modelled as the format together with the rounded pair; two keys with
different formats never print the same string (`toFixed` pads a fixed
number of decimals, plain printing never does), so structural equality of
the triple models string equality. -/
inductive KeyFmt where
  | fixed6
  | fixed5
  | plain
deriving DecidableEq

/-- A coordinate string key of the elevation maps. -/
abbrev ElevKey : Type := KeyFmt × ℝ × ℝ

/-- Rounding to six decimals (the idealization of both `toFixed(6)` and
`Math.round(x * 1_000_000) / 1_000_000` on real inputs). -/
noncomputable def round6 (x : ℝ) : ℝ := ((round (x * 1000000) : ℤ) : ℝ) / 1000000

/-- Rounding to five decimals (the idealization of `toFixed(5)`). -/
noncomputable def round5 (x : ℝ) : ℝ := ((round (x * 100000) : ℤ) : ℝ) / 100000

/-- One entry of a successful Open-Elevation response (`elevation` is
`number | null`). -/
structure ElevResult where
  latitude : ℝ
  longitude : ℝ
  elevation : Option ℝ

/-- The outcome of one elevation batch request: a parsed JSON body whose
`results` field may be missing, a non-OK HTTP status, or a thrown
fetch/parse error. -/
inductive ElevResp where
  | ok (results : Option (List ElevResult))
  | httpErr (status : ℕ)
  | netErr

/-- The `elevationMap`: JavaScript `Map` from coordinate keys to rounded
elevations, as an association list with `Map.set` overwrite semantics. -/
abbrev ElevMap : Type := List (ElevKey × ℤ)

/-- JavaScript `Map.set` on the elevation map: overwrite an existing key in place,
else append. -/
noncomputable def elevMapSet (m : ElevMap) (k : ElevKey) (v : ℤ) : ElevMap :=
  if m.any fun p => decide (p.1 = k) then
    m.map fun p => if p.1 = k then (k, v) else p
  else m ++ [(k, v)]

/-- JavaScript `Map.get` on the elevation map. -/
noncomputable def elevMapGet (m : ElevMap) (k : ElevKey) : Option ℤ :=
  (m.find? fun p => decide (p.1 = k)).map (·.2)

/-- The success branch of `fetchWithRetry` (`geoportail.ts` lines 93-116):
for each returned result with non-null elevation, try the three key
formats against the input coordinate index and store the rounded elevation
under the first key found. -/
noncomputable def processResults (coordIndex : List ElevKey)
    (results : List ElevResult) (elevationMap : ElevMap) : ElevMap :=
  results.foldl
    (fun acc r =>
      match r.elevation with
      | none => acc
      | some elev =>
        let keys : List ElevKey :=
          [(.fixed6, round6 r.latitude, round6 r.longitude),
           (.fixed5, round5 r.latitude, round5 r.longitude),
           (.plain, round6 r.latitude, round6 r.longitude)]
        match keys.find? (fun k => coordIndex.any fun k' => decide (k' = k)) with
        | some foundKey => elevMapSet acc foundKey (round elev)
        | none => acc)
    elevationMap

/-- The `coordIndex` built by `fetchElevations` (lines 45-49): the
`toFixed(6)` key of every input coordinate.  (The map's index values are
never read — only `coordIndex.has` is used — so only the keys are
kept.) -/
noncomputable def coordIndexOf (coordinates : List Coordinate) : List ElevKey :=
  coordinates.map fun c => (.fixed6, round6 c.lat, round6 c.lon)

/-- Function `fetchWithRetry` (`geoportail.ts` lines 52-120), with the network made
explicit: `respond` is the provider's answer to a batch, the first result
component is the list of issued batch requests in issue order, the second
the elevation map after the call.  On a 413 status with depth below 5 the
batch is bisected (`Math.ceil(length / 2)`) and both halves are retried at
depth + 1; any other failure abandons the batch after its one request. -/
noncomputable def fetchWithRetry (respond : List Coordinate → ElevResp)
    (coordIndex : List ElevKey) (coords : List Coordinate) (iteration : ℕ)
    (elevationMap : ElevMap) : List (List Coordinate) × ElevMap :=
  if h : coords.isEmpty ∨ 5 ≤ iteration then ([], elevationMap)
  else
    match respond coords with
    | .httpErr status =>
      if status = 413 ∧ iteration < 5 then
        let mid := (coords.length + 1) / 2
        let batch1 := coords.take mid
        let batch2 := coords.drop mid
        let r1 := fetchWithRetry respond coordIndex batch1 (iteration + 1) elevationMap
        let r2 := fetchWithRetry respond coordIndex batch2 (iteration + 1) r1.2
        (coords :: (r1.1 ++ r2.1), r2.2)
      else ([coords], elevationMap)
    | .netErr => ([coords], elevationMap)
    | .ok none => ([coords], elevationMap)
    | .ok (some results) => ([coords], processResults coordIndex results elevationMap)
termination_by 5 - iteration
decreasing_by
  all_goals
    push_neg at h
    omega

/-- Function `fetchElevations` (`geoportail.ts` lines 35-124): empty input short
circuits; otherwise build the coordinate index and run `fetchWithRetry` at
depth 0 on an empty elevation map. -/
noncomputable def fetchElevations (respond : List Coordinate → ElevResp)
    (coordinates : List Coordinate) : List (List Coordinate) × ElevMap :=
  if coordinates.isEmpty then ([], [])
  else fetchWithRetry respond (coordIndexOf coordinates) coordinates 0 []

/-- The Overpass query of `searchLocationsNearPath`: its bounding box and
whether the `[place]` tag filter is added (it is for multi-point
paths). -/
structure OverpassQuery where
  minLat : ℝ
  minLon : ℝ
  maxLat : ℝ
  maxLon : ℝ
  placeFilter : Bool

/-- The parsed Overpass response: either the `parsererror` document or the
node and way elements. -/
inductive XmlResponse where
  | parsererror
  | doc (nodes : List XmlNode) (ways : List XmlWay)

/-- One outbound provider request of the aggregator. -/
inductive ProviderRequest where
  | overpass (q : OverpassQuery)
  | elevation (coords : List Coordinate)

/-- The network environment of `searchLocationsNearPath`: the Overpass
answer (`Except.error` models a rejected fetch) and the elevation
provider's per-batch answers. -/
structure Env where
  overpass : OverpassQuery → Except Unit XmlResponse
  elevations : List Coordinate → ElevResp

/-- Function `searchLocationsNearPath` (`geoportail.ts` lines 519-626).  The first
component is the settled outcome (the promise rejects when the awaited
queue dispatch rejects); the second lists every provider request issued,
in order: the single Overpass dispatch through the request queue, then the
elevation batches.  A missing or empty path returns immediately. -/
noncomputable def searchLocationsNearPath (env : Env)
    (pathPoints : List Coordinate) (searchDistanceKm : ℝ)
    (bufferPolygon : Option (GeoJson ℝ)) :
    Except Unit (List AddressSearchResult) × List ProviderRequest :=
  if pathPoints.isEmpty then (Except.ok [], [])
  else
    let bbox := calculateBbox pathPoints searchDistanceKm
    let q : OverpassQuery :=
      ⟨bbox.minLat, bbox.minLon, bbox.maxLat, bbox.maxLon,
       decide (pathPoints.length ≠ 1)⟩
    match env.overpass q with
    | .error e => (.error e, [.overpass q])
    | .ok resp =>
      let results : RMap :=
        match resp with
        | .parsererror => []
        | .doc nodes ways =>
          processXmlWays ways
            (processXmlNodes nodes [] pathPoints searchDistanceKm bufferPolygon)
            pathPoints searchDistanceKm bufferPolygon
      let resultArray := results.map (·.2)
      if resultArray.isEmpty then (.ok resultArray, [.overpass q])
      else
        let coordinates := resultArray.map (·.coordinates)
        let elev := fetchElevations env.elevations coordinates
        let enriched := resultArray.map fun r =>
          let keys : List ElevKey :=
            [(.fixed6, round6 r.coordinates.lat, round6 r.coordinates.lon),
             (.fixed5, round5 r.coordinates.lat, round5 r.coordinates.lon),
             (.plain, round6 r.coordinates.lat, round6 r.coordinates.lon)]
          match (keys.filterMap (elevMapGet elev.2)).head? with
          | some e => { r with elevation := some e }
          | none => r
        (.ok enriched, .overpass q :: elev.1.map .elevation)

end Geoportail

namespace RequestQueue

/-!
Model of `RequestQueue` (`geoportail.ts` lines 320-384).  `add` pushes one
resolver and one rejecter and one queue closure atomically; the drain loop
(`processQueue`) runs closures one at a time in queue order, and each
closure shifts the front resolver/rejecter pair and settles it with the
task's own result or error — a rejection is caught by the drain loop's
`try/catch` and the loop continues.  Tasks are identified by submission
index; `outcome i` is the i-th task's eventual result.  The model is a
small-step relation: `add` is a call to `RequestQueue.add`, `run` the
dispatch of the front queue closure by `processQueue`.  (The enforced
minimum inter-dispatch delay is real time and is not modelled.)
-/

/-- The queue's state: `queue` and `resolvers` hold task indices in FIFO
order (the source's `queue`, `resolveStack`/`rejectStack`); `dispatched`
records dispatch order; `settled` records `(promise index, value)` in
settlement order. -/
structure QState (ε ρ : Type) where
  submitted : ℕ
  queue : List ℕ
  resolvers : List ℕ
  dispatched : List ℕ
  settled : List (ℕ × Except ε ρ)

/-- The idle queue. -/
def init {ε ρ : Type} : QState ε ρ := ⟨0, [], [], [], []⟩

/-- One step of the queue: a new submission, or the drain loop running the
front closure (which shifts the front resolver and settles it with the
task's own outcome — error or not). -/
inductive Step {ε ρ : Type} (outcome : ℕ → Except ε ρ) :
    QState ε ρ → QState ε ρ → Prop where
  | add (s : QState ε ρ) :
      Step outcome s
        ⟨s.submitted + 1, s.queue ++ [s.submitted], s.resolvers ++ [s.submitted],
         s.dispatched, s.settled⟩
  | run (s : QState ε ρ) (i r : ℕ) (q' rs : List ℕ)
      (hq : s.queue = i :: q') (hr : s.resolvers = r :: rs) :
      Step outcome s
        ⟨s.submitted, q', rs, s.dispatched ++ [i], s.settled ++ [(r, outcome i)]⟩

/-- States reachable from the idle queue. -/
def Reachable {ε ρ : Type} (outcome : ℕ → Except ε ρ) : QState ε ρ → Prop :=
  Relation.ReflTransGen (Step outcome) init

end RequestQueue

namespace LayersStore

/-!
Model of the layers store of `useDrawing.ts` (the `defineStore('layers')`
block): element and note records, `getElement`, `addNote`, `deleteNote`,
record validation and `loadLayers`.  In-place mutation of a found element
becomes an update of the first matching list entry; `console.warn`
appends to a warnings list.
-/

/-- The linked element kind strings `'circle' | 'lineSegment' | 'point'`. -/
inductive ElementType where
  | circle
  | lineSegment
  | point
deriving DecidableEq

/-- A stored circle (the fields the store reads or writes). -/
structure CircleElement where
  id : String
  name : String
  center : Geoportail.Coordinate
  radius : ℝ
  createdAt : Option ℕ
  noteId : Option String

/-- A stored line segment (the fields the store reads or writes). -/
structure LineSegmentElement where
  id : String
  name : String
  createdAt : Option ℕ
  noteId : Option String

/-- A stored point (the fields the store reads or writes). -/
structure PointElement where
  id : String
  name : String
  createdAt : Option ℕ
  noteId : Option String

/-- A note record. -/
structure NoteElement where
  id : String
  title : String
  content : String
  createdAt : Option ℕ
  updatedAt : Option ℕ
  linkedElementType : Option ElementType
  linkedElementId : Option String
deriving DecidableEq

/-- The union type returned by `getElement`. -/
inductive Element where
  | circleE (c : CircleElement)
  | lineSegmentE (s : LineSegmentElement)
  | pointE (p : PointElement)

/-- The `noteId` field of a store element. -/
def Element.noteId : Element → Option String
  | .circleE c => c.noteId
  | .lineSegmentE s => s.noteId
  | .pointE p => p.noteId

/-- The store's state, plus the accumulated `console.warn` messages. -/
structure Store where
  circles : List CircleElement
  lineSegments : List LineSegmentElement
  points : List PointElement
  notes : List NoteElement
  warnings : List String

/-- Update the first list entry satisfying `p` (the state-passing image of
mutating the object that `find` returned). -/
def updateFirst {β : Type} (p : β → Bool) (f : β → β) : List β → List β
  | [] => []
  | x :: xs => if p x then f x :: xs else x :: updateFirst p f xs

/-- Function `getElement` of the layers store (`useDrawing.ts` lines 1159-1178):
first element of the kind's list with the given id. -/
def getElement (st : Store) (elementType : ElementType) (elementId : String) :
    Option Element :=
  match elementType with
  | .circle => (st.circles.find? fun c => c.id == elementId).map .circleE
  | .lineSegment =>
    (st.lineSegments.find? fun s => s.id == elementId).map .lineSegmentE
  | .point => (st.points.find? fun p => p.id == elementId).map .pointE

/-- Writing `element.noteId` on the element `getElement` found: update the
first matching entry of the kind's list. -/
def setElementNoteId (st : Store) (elementType : ElementType)
    (elementId : String) (noteId : Option String) : Store :=
  match elementType with
  | .circle =>
    let circles := updateFirst (fun c => c.id == elementId)
      (fun c => { c with noteId := noteId }) st.circles
    { st with circles := circles }
  | .lineSegment =>
    let lineSegments := updateFirst (fun s => s.id == elementId)
      (fun s => { s with noteId := noteId }) st.lineSegments
    { st with lineSegments := lineSegments }
  | .point =>
    let points := updateFirst (fun p => p.id == elementId)
      (fun p => { p with noteId := noteId }) st.points
    { st with points := points }

/-- JavaScript truthiness of an optional string field. -/
def strTruthy : Option String → Bool
  | none => false
  | some s => s != ""

/-- JavaScript truthiness of an optional numeric timestamp (`undefined`
and 0 are falsy). -/
def natTruthy : Option ℕ → Bool
  | none => false
  | some n => n != 0

/-- The timestamp defaulting at the head of `addNote` (lines 1181-1186),
with `now` standing for `Date.now()`; a zero timestamp is falsy and is
overwritten too. -/
def withDefaultTimestamps (now : ℕ) (note : NoteElement) : NoteElement :=
  let note := if natTruthy note.createdAt then note
    else { note with createdAt := some now }
  if natTruthy note.updatedAt then note
  else { note with updatedAt := some now }

/-- The link maintenance of `addNote` (lines 1188-1199): when the note
links to an element that exists, warn if the element already carries a
different note's id, then overwrite `element.noteId`. -/
def linkNote (note : NoteElement) (st : Store) : Store :=
  match note.linkedElementType, note.linkedElementId with
  | some elementType, some elementId =>
    if elementId != "" && note.id != "" then
      match getElement st elementType elementId with
      | some element =>
        setElementNoteId
          (if strTruthy element.noteId && element.noteId != some note.id then
            { st with warnings := st.warnings ++
                ["Element " ++ elementId ++
                 " already has a note. Replacing with new note."] }
          else st)
          elementType elementId (some note.id)
      | none => st
    else st
  | _, _ => st

/-- Function `addNote` (`useDrawing.ts` lines 1180-1203): default the timestamps,
maintain the bidirectional link, and push the note. -/
def addNote (now : ℕ) (note : NoteElement) (st : Store) : Store :=
  let note := withDefaultTimestamps now note
  let st := linkNote note st
  { st with notes := st.notes ++ [note] }

/-- Function `deleteNote` (`useDrawing.ts` lines 1249-1264): find the note, clear
the linked element's `noteId` when it points back at this note, and remove
the note.  (An `undefined` id matches nothing.) -/
def deleteNote (id : Option String) (st : Store) : Store :=
  match id with
  | none => st
  | some i =>
    match st.notes.find? fun n => n.id == i with
    | none => st
    | some note =>
      let st :=
        match note.linkedElementType, note.linkedElementId with
        | some elementType, some elementId =>
          if elementId != "" then
            match getElement st elementType elementId with
            | some element =>
              if element.noteId == some i then
                setElementNoteId st elementType elementId none
              else st
            | none => st
          else st
        | _, _ => st
      { st with notes := st.notes.eraseP fun n => n.id == i }

end LayersStore

namespace LayersStore.Load

/-!
Model of the record validation and bulk load of `useDrawing.ts`
(`validateCircle`, `validateLineSegment`, `validatePoint`, `validateNote`,
`loadLayers`, lines 1291-1402).  The externally supplied records are typed
`any` in the source, so their fields are modelled as untyped JavaScript
values and the records themselves as nullable.
-/

/-- An untyped JavaScript field value, as far as the validators inspect
one.  JSON numbers are exactly representable as rationals; `nan` is the
number `NaN` (for which `typeof` is still `'number'`). -/
inductive JsVal where
  | str (s : String)
  | num (q : ℚ)
  | nan
  | boolean (b : Bool)
  | nullv
  | undef
deriving DecidableEq

/-- Test `typeof v === 'string'`. -/
def JsVal.isString : JsVal → Bool
  | .str _ => true
  | _ => false

/-- Test `typeof v === 'number'` (true for `NaN` too). -/
def JsVal.isNumber : JsVal → Bool
  | .num _ => true
  | .nan => true
  | _ => false

/-- Test `Number.isNaN(v)`. -/
def JsVal.isNaN : JsVal → Bool
  | .nan => true
  | _ => false

/-- The comparison `v > 0` as evaluated after the `typeof` checks (only a
genuine number can reach it through the validator's `&&` chain). -/
def JsVal.gtZero : JsVal → Bool
  | .num q => decide (0 < q)
  | _ => false

/-- JavaScript truthiness of a field value. -/
def JsVal.truthy : JsVal → Bool
  | .str s => s != ""
  | .num q => decide (q ≠ 0)
  | .nan => false
  | .boolean b => b
  | .nullv => false
  | .undef => false

/-- A candidate `{lat, lon}` sub-object. -/
structure RawCenter where
  lat : JsVal
  lon : JsVal
deriving DecidableEq

/-- A candidate circle record (`none` sub-object models a missing or
non-object field). -/
structure RawCircle where
  id : JsVal
  name : JsVal
  center : Option RawCenter
  radius : JsVal
deriving DecidableEq

/-- A candidate line segment record. -/
structure RawSegment where
  id : JsVal
  name : JsVal
  center : Option RawCenter
  mode : JsVal
  longitude : JsVal
  endpoint : Option RawCenter
deriving DecidableEq

/-- A candidate point record. -/
structure RawPoint where
  id : JsVal
  name : JsVal
  coordinates : Option RawCenter
deriving DecidableEq

/-- A candidate note record. -/
structure RawNote where
  id : JsVal
  title : JsVal
  content : JsVal
deriving DecidableEq

/-- Function `validateCircle` (`useDrawing.ts` lines 1291-1305): the record and its
`center` must be present, `id`/`name` strings, `center.lat`, `center.lon`
and `radius` non-NaN numbers, and `radius > 0`. -/
def validateCircle : Option RawCircle → Bool
  | none => false
  | some c =>
    match c.center with
    | none => false
    | some center =>
      c.id.isString && c.name.isString &&
        center.lat.isNumber && center.lon.isNumber && c.radius.isNumber &&
        !center.lat.isNaN && !center.lon.isNaN && !c.radius.isNaN &&
        c.radius.gtZero

/-- Function `validateLineSegment` (`useDrawing.ts` lines 1307-1331): common checks
(no NaN check on the center here, as in the source), then the
mode-specific check — a numeric non-NaN `longitude` for `'parallel'`
mode, else a present endpoint with non-NaN numeric coordinates. -/
def validateLineSegment : Option RawSegment → Bool
  | none => false
  | some s =>
    match s.center with
    | none => false
    | some center =>
      if !(s.id.isString && s.name.isString &&
            center.lat.isNumber && center.lon.isNumber && s.mode.truthy) then
        false
      else if s.mode == .str "parallel" then
        s.longitude.isNumber && !s.longitude.isNaN
      else
        match s.endpoint with
        | none => false
        | some endpoint =>
          endpoint.lat.isNumber && endpoint.lon.isNumber &&
            !endpoint.lat.isNaN && !endpoint.lon.isNaN

/-- Function `validatePoint` (`useDrawing.ts` lines 1333-1346). -/
def validatePoint : Option RawPoint → Bool
  | none => false
  | some p =>
    match p.coordinates with
    | none => false
    | some coordinates =>
      p.id.isString && p.name.isString &&
        coordinates.lat.isNumber && coordinates.lon.isNumber &&
        !coordinates.lat.isNaN && !coordinates.lon.isNaN

/-- Function `validateNote` (`useDrawing.ts` lines 1348-1355). -/
def validateNote : Option RawNote → Bool
  | none => false
  | some n => n.id.isString && n.title.isString && n.content.isString

/-- The externally supplied payload of `loadLayers` (`notes` is an
optional field; `data.notes || []` defaults it). -/
structure RawData where
  circles : List (Option RawCircle)
  lineSegments : List (Option RawSegment)
  points : List (Option RawPoint)
  notes : Option (List (Option RawNote))

/-- The store state `loadLayers` produces, with the `console.warn`
messages recorded per skipped record. -/
structure Loaded where
  circles : List (Option RawCircle)
  lineSegments : List (Option RawSegment)
  points : List (Option RawPoint)
  notes : List (Option RawNote)
  warnings : List String

/-- Function `loadLayers` (`useDrawing.ts` lines 1357-1402): clear the store, then
filter every record list through its validator, warning once per dropped
record, and install the surviving records. -/
def loadLayers (data : RawData) : Loaded :=
  let validCircles := data.circles.filter validateCircle
  let circleWarnings := (data.circles.filter fun c => !validateCircle c).map
    fun _ => "Invalid circle data detected and skipped"
  let validLineSegments := data.lineSegments.filter validateLineSegment
  let segmentWarnings :=
    (data.lineSegments.filter fun s => !validateLineSegment s).map
      fun _ => "Invalid line segment data detected and skipped"
  let validPoints := data.points.filter validatePoint
  let pointWarnings := (data.points.filter fun p => !validatePoint p).map
    fun _ => "Invalid point data detected and skipped"
  let noteList := data.notes.getD []
  let validNotes := noteList.filter validateNote
  let noteWarnings := (noteList.filter fun n => !validateNote n).map
    fun _ => "Invalid note data detected and skipped"
  { circles := validCircles
    lineSegments := validLineSegments
    points := validPoints
    notes := validNotes
    warnings := circleWarnings ++ segmentWarnings ++ pointWarnings ++ noteWarnings }

end LayersStore.Load

namespace SearchAddress

/-!
Model of `searchAddress` (`geoportail.ts` lines 132-170).  The fetch and
body parse are made explicit through a `CompletionOutcome` oracle; any
error thrown inside the `try` (a rejected fetch, a non-OK status turned
into `throw new Error`, a JSON parse rejection) is caught by the single
`catch`, logged, and rethrown wrapped — so the model returns
`Except.error` exactly in those cases.  Coordinates use `ℚ` so the model
evaluates. -/

/-- One candidate of the completion response (`GeoportailResult`). -/
structure GeoportailResult where
  fulltext : String
  x : ℚ
  y : ℚ
  kind : Option String

/-- The `results` field of the parsed body: missing (or falsy), present
but not an array, or an array. -/
inductive ResultsField where
  | missing
  | nonArray
  | arr (results : List GeoportailResult)

/-- The body of a completed response: a JSON parse failure or a parsed
object with its `results` field. -/
inductive BodyOutcome where
  | parseError
  | parsed (results : ResultsField)

/-- The outcome of the completion fetch. -/
inductive CompletionOutcome where
  | networkError
  | response (ok : Bool) (status : ℕ) (body : BodyOutcome)

/-- A search result with rational coordinates (the `AddressSearchResult`
shape that `searchAddress` returns). -/
structure AddressSearchResult where
  main : String
  secondary : Option String
  lat : ℚ
  lon : ℚ
  type? : Option String
deriving DecidableEq

/-- JavaScript `result.kind || undefined`. -/
def kindOrUndef : Option String → Option String
  | none => none
  | some k => if k = "" then none else some k

/-- JavaScript `String.prototype.trim`: strip leading and trailing
whitespace. -/
def jsTrim (s : String) : String :=
  ⟨((s.data.dropWhile Char.isWhitespace).reverse.dropWhile
      Char.isWhitespace).reverse⟩

/-- Function `searchAddress`: a blank query returns `[]`; a network failure, a
non-OK status or an unparsable body throws to the caller; a parsed body
without a results array returns `[]`; otherwise the mapped candidate
list. -/
def searchAddress (query : String) (env : CompletionOutcome) :
    Except String (List AddressSearchResult) :=
  if jsTrim query = "" then .ok []
  else
    match env with
    | .networkError => .error "Failed to search address: network error"
    | .response ok status body =>
      if !ok then .error ("Failed to search address: API error: " ++ toString status)
      else
        match body with
        | .parseError => .error "Failed to search address: invalid JSON"
        | .parsed results =>
          match results with
          | .missing => .ok []
          | .nonArray => .ok []
          | .arr l => .ok (l.map fun r =>
              { main := r.fulltext
                secondary := kindOrUndef r.kind
                lat := r.y
                lon := r.x
                type? := r.kind })

/-- Whether `searchAddress` threw for this environment and a non-blank
query. -/
def throwsOn (env : CompletionOutcome) : Bool :=
  match env with
  | .networkError => true
  | .response ok _ body =>
    !ok || (match body with | .parseError => true | .parsed _ => false)

/-- Modelled from the spec: the text-completion provider being "entirely
unreachable" is the fetch itself failing (no response at all). -/
def providerUnreachable : CompletionOutcome → Bool
  | .networkError => true
  | _ => false

/-- Modelled from the spec: the request being "structurally confirmed
invalid" is the provider answering with a 4xx client-error status. -/
def requestConfirmedInvalid : CompletionOutcome → Bool
  | .networkError => false
  | .response _ status _ => decide (400 ≤ status) && decide (status < 500)

end SearchAddress

namespace Geoportail

/-- The elevation provider that answers every batch with HTTP 413
(payload too large). -/
def all413 : List Coordinate → ElevResp := fun _ => .httpErr 413

end Geoportail

namespace RequestQueue

/-- Concrete outcome function for the queue scenario: the first task
rejects, every later task fulfils. -/
def outW : ℕ → Except String ℕ := fun n => if n = 0 then .error "rejected" else .ok n

/-- The queue state after two submissions and two dispatches under
`outW`. -/
def sF : QState String ℕ := ⟨2, [], [], [0, 1], [(0, .error "rejected"), (1, .ok 1)]⟩

end RequestQueue

namespace LayersStore

/-- Setting the `noteId` field of a store element. -/
def Element.withNoteId : Element → Option String → Element
  | .circleE c, nid => .circleE { c with noteId := nid }
  | .lineSegmentE s, nid => .lineSegmentE { s with noteId := nid }
  | .pointE p, nid => .pointE { p with noteId := nid }

/-- The bidirectional-link invariant exactly as the specification states
it: every note that links to an entity has that entity's `noteId` equal to
the note's own id. -/
def I1 (st : Store) : Prop :=
  ∀ n ∈ st.notes, ∀ elementType elementId,
    n.linkedElementType = some elementType →
    n.linkedElementId = some elementId →
    ∀ e, getElement st elementType elementId = some e → e.noteId = some n.id

/-- Scenario fixture: a store holding one circle already linked to note
`AW`. -/
def cW : CircleElement :=
  { id := "c", name := "circle", center := ⟨0, 0⟩, radius := 1,
    createdAt := some 1, noteId := some "A" }

/-- Scenario fixture: the note already linked to circle `"c"`. -/
def AW : NoteElement :=
  { id := "A", title := "first", content := "", createdAt := some 1,
    updatedAt := some 1, linkedElementType := some .circle,
    linkedElementId := some "c" }

/-- Scenario fixture: the second note assigned to the same circle. -/
def BW : NoteElement :=
  { id := "B", title := "second", content := "", createdAt := some 1,
    updatedAt := some 1, linkedElementType := some .circle,
    linkedElementId := some "c" }

/-- Scenario fixture: the store where circle `"c"` is linked to `AW`. -/
def stW : Store :=
  { circles := [cW], lineSegments := [], points := [], notes := [AW],
    warnings := [] }

/-- Scenario fixture: the unlinked circle, before any note exists. -/
def cW0 : CircleElement :=
  { id := "c", name := "circle", center := ⟨0, 0⟩, radius := 1,
    createdAt := some 1, noteId := none }

/-- Scenario fixture: the store before any note was added. -/
def st0 : Store :=
  { circles := [cW0], lineSegments := [], points := [], notes := [],
    warnings := [] }

end LayersStore

namespace LayersStore.Load

/-- A structurally valid circle record. -/
def goodCircle1 : RawCircle :=
  { id := .str "c1", name := .str "one",
    center := some ⟨.num 1, .num 2⟩, radius := .num 3 }

/-- The structurally invalid circle record: its radius is -1. -/
def badCircle : RawCircle :=
  { id := .str "c2", name := .str "two",
    center := some ⟨.num 4, .num 5⟩, radius := .num (-1) }

/-- A second structurally valid circle record. -/
def goodCircle2 : RawCircle :=
  { id := .str "c3", name := .str "three",
    center := some ⟨.num 6, .num 7⟩, radius := .num 8 }

/-- The bulk-load payload of three circles, one invalid. -/
def demoData : RawData :=
  { circles := [some goodCircle1, some badCircle, some goodCircle2],
    lineSegments := [], points := [], notes := none }

end LayersStore.Load

/-! ## Claims -/

section Claims

open Geoportail

/-- C8: for every point and segment, `distancePointToSegment` equals the
minimum of the haversine distances from the point to the segment start,
the segment end, and the coordinate-wise midpoint of the segment. -/
theorem C8_distancePointToSegment_is_min_of_three
    (point segStart segEnd : Coordinate) :
    distancePointToSegment point segStart segEnd =
      min (haversineDistance point segStart)
        (min (haversineDistance point segEnd)
          (haversineDistance point
            ⟨(segStart.lat + segEnd.lat) / 2, (segStart.lon + segEnd.lon) / 2⟩)) := by
  show min (min _ _) _ = _
  exact min_assoc _ _ _

/-- C10: `searchLocationsNearPath` on an empty path returns the empty
result list immediately, issues no provider request and queues no work,
and does not throw. -/
theorem C10_searchLocationsNearPath_empty_path (env : Env)
    (searchDistanceKm : ℝ) (bufferPolygon : Option (GeoJson ℝ)) :
    searchLocationsNearPath env [] searchDistanceKm bufferPolygon =
      (Except.ok [], []) := rfl

end Claims

section ClaimsLoad

open LayersStore.Load

/-- C5: `loadLayers` validates each circle record individually and keeps
exactly the ones whose id and name are strings and whose center
coordinates and radius are non-NaN numbers with positive radius; loading
one structurally invalid circle (radius -1) among three circles yields
exactly the two valid circles with one warning recorded, not a failed
load. -/
theorem C5_loadLayers_drops_only_invalid_circles :
    (∀ data : RawData,
      (loadLayers data).circles = data.circles.filter validateCircle)
    ∧ (∀ (id name radius : JsVal) (center : RawCenter),
        validateCircle (some ⟨id, name, some center, radius⟩) =
          (id.isString && name.isString &&
            center.lat.isNumber && center.lon.isNumber && radius.isNumber &&
            !center.lat.isNaN && !center.lon.isNaN && !radius.isNaN &&
            radius.gtZero))
    ∧ (loadLayers demoData).circles = [some goodCircle1, some goodCircle2]
    ∧ (loadLayers demoData).circles.length = 2
    ∧ (loadLayers demoData).warnings =
        ["Invalid circle data detected and skipped"] := by
  refine ⟨fun data => rfl, fun id name radius center => rfl, ?_, ?_, ?_⟩ <;> decide

end ClaimsLoad

section ClaimsSearch

open SearchAddress

/-- C6 counterexample: on an OK (status 200) response whose body fails
JSON parsing, `searchAddress` throws to its caller even though the
provider was reachable and the request was not confirmed invalid —
refuting the claim that exceptions are raised only when the provider is
entirely unreachable or the request is structurally confirmed invalid. -/
theorem C6_counterexample_parse_error_on_ok_response :
    (searchAddress "Paris" (.response true 200 .parseError)).isOk = false
    ∧ providerUnreachable (.response true 200 .parseError) = false
    ∧ requestConfirmedInvalid (.response true 200 .parseError) = false := by
  refine ⟨?_, rfl, rfl⟩
  decide

/-- C6 amended: `searchAddress` throws exactly when the query is
non-blank and the fetch fails, the response status is non-OK, or the
response body fails to parse as JSON; for a blank query or any parsed OK
response (with or without a results array) it returns a list without
throwing. -/
theorem C6_amended_searchAddress_throw_characterization
    (query : String) (env : CompletionOutcome) :
    (searchAddress query env).isOk =
      (decide (jsTrim query = "") || !throwsOn env) := by
  by_cases hq : jsTrim query = ""
  · simp [searchAddress, hq, Except.isOk, Except.toBool]
  · cases env with
    | networkError => simp [searchAddress, hq, throwsOn, Except.isOk, Except.toBool]
    | response ok status body =>
      cases ok with
      | false => simp [searchAddress, hq, throwsOn, Except.isOk, Except.toBool]
      | true =>
        cases body with
        | parseError => simp [searchAddress, hq, throwsOn, Except.isOk, Except.toBool]
        | parsed results =>
          cases results <;>
            simp [searchAddress, hq, throwsOn, Except.isOk, Except.toBool]

end ClaimsSearch

section ClaimsGeo

open Geoportail

/-- The `WithTop ℝ` running minimum of `isLocationInSearchZone` agrees
with the plain real running minimum once seeded with a finite value. -/
lemma foldl_min_withTop_coe (c : Coordinate) :
    ∀ (l : List (Coordinate × Coordinate)) (x : ℝ),
      l.foldl (fun (m : WithTop ℝ) q =>
        min m ↑(distancePointToSegment c q.1 q.2)) ↑x
        = ↑(l.foldl (fun m q => min m (distancePointToSegment c q.1 q.2)) x) := by
  intro l
  induction l with
  | nil => intro x; rfl
  | cons q l ih =>
    intro x
    simp only [List.foldl_cons]
    rw [← WithTop.coe_min, ih]

/-- C3: the containment predicate is point-in-polygon when a buffer
polygon is supplied; otherwise distance-to-point for a one-point path and
the minimum point-to-segment distance over consecutive pairs for a
longer path. -/
theorem C3_isLocationInSearchZone_dispatch
    (resultCoords : Coordinate) (searchDistanceKm : ℝ) :
    (∀ pathPoints poly,
      isLocationInSearchZone resultCoords pathPoints searchDistanceKm (some poly)
        = pointInPolygon (resultCoords.lon, resultCoords.lat) poly)
    ∧ (∀ p, isLocationInSearchZone resultCoords [p] searchDistanceKm none
        = decide (haversineDistance resultCoords p ≤ searchDistanceKm))
    ∧ (∀ a b rest,
        isLocationInSearchZone resultCoords (a :: b :: rest) searchDistanceKm none
          = decide (((b :: rest).zip rest).foldl
              (fun m q => min m (distancePointToSegment resultCoords q.1 q.2))
              (distancePointToSegment resultCoords a b) ≤ searchDistanceKm)) := by
  refine ⟨fun pathPoints poly => rfl, fun p => ?_, fun a b rest => ?_⟩
  · simp only [isLocationInSearchZone]
    apply decide_eq_decide.mpr
    simp only [List.length_singleton, List.headD_cons]
    rw [if_pos trivial]
    exact WithTop.coe_le_coe
  · simp only [isLocationInSearchZone]
    apply decide_eq_decide.mpr
    simp only [List.length_cons, List.tail_cons, List.zip_cons_cons,
      List.foldl_cons]
    rw [if_neg (by omega)]
    rw [show (min ⊤ (↑(distancePointToSegment resultCoords a b) : WithTop ℝ))
          = ↑(distancePointToSegment resultCoords a b) from min_eq_right le_top]
    rw [foldl_min_withTop_coe]
    exact WithTop.coe_le_coe

/-- C9: in the Overpass response scan, a node or way whose parsed
latitude or longitude is exactly 0 is discarded by the truthiness guard
`if (name && lat && lon)`, whatever the path, radius, buffer polygon or
accumulated results. -/
theorem C9_zero_coordinate_discarded
    (pathPoints : List Coordinate) (searchDistanceKm : ℝ)
    (bufferPolygon : Option (GeoJson ℝ)) (results : RMap)
    (node : XmlNode) (nodes : List XmlNode)
    (wname : Option String) (wtags : List (String × String)) (wlat wlon : ℝ)
    (ways : List XmlWay)
    (hn : node.lat = 0 ∨ node.lon = 0)
    (hw : wlat = 0 ∨ wlon = 0) :
    processXmlNodes (node :: nodes) results pathPoints searchDistanceKm
        bufferPolygon
      = processXmlNodes nodes results pathPoints searchDistanceKm bufferPolygon
    ∧ processXmlWays (⟨some ⟨wlat, wlon⟩, wname, wtags⟩ :: ways) results
        pathPoints searchDistanceKm bufferPolygon
      = processXmlWays ways results pathPoints searchDistanceKm bufferPolygon := by
  constructor
  · simp only [processXmlNodes, List.foldl_cons]
    congr 1
    rcases hn with h | h <;> simp [h]
  · simp only [processXmlWays, List.foldl_cons]
    congr 1
    rcases hw with h | h <;> simp [h]

/-- C9 witness: a named node on the equator and a named way on the
equator are both dropped from the scan. -/
theorem C9_zero_coordinate_discarded_witness :
    processXmlNodes [⟨0, 1, some "Equator", []⟩] [] [] 1 none
      = processXmlNodes [] [] [] 1 none
    ∧ processXmlWays [⟨some ⟨0, 1⟩, some "Meridian", []⟩] [] [] 1 none
      = processXmlWays [] [] [] 1 none :=
  C9_zero_coordinate_discarded [] 1 none [] ⟨0, 1, some "Equator", []⟩ []
    (some "Meridian") [] 0 1 [] (Or.inl rfl) (Or.inl rfl)

/-- Under the always-413 provider, `fetchWithRetry` stops without a
request at the guard. -/
lemma fetchWithRetry_stop (coordIndex : List ElevKey)
    (coords : List Coordinate) (iteration : ℕ) (acc : ElevMap)
    (hg : coords.isEmpty = true ∨ 5 ≤ iteration) :
    fetchWithRetry all413 coordIndex coords iteration acc = ([], acc) := by
  rw [fetchWithRetry, dif_pos hg]

/-- Under the always-413 provider, one live call issues its request and
recurses on the two halves at depth + 1. -/
lemma fetchWithRetry_413_step (coordIndex : List ElevKey)
    (coords : List Coordinate) (iteration : ℕ) (acc : ElevMap)
    (hg : ¬(coords.isEmpty = true ∨ 5 ≤ iteration)) :
    fetchWithRetry all413 coordIndex coords iteration acc =
      ((coords ::
        ((fetchWithRetry all413 coordIndex
            (coords.take ((coords.length + 1) / 2)) (iteration + 1) acc).1 ++
          (fetchWithRetry all413 coordIndex
            (coords.drop ((coords.length + 1) / 2)) (iteration + 1)
            (fetchWithRetry all413 coordIndex
              (coords.take ((coords.length + 1) / 2)) (iteration + 1) acc).2).1)),
       (fetchWithRetry all413 coordIndex
          (coords.drop ((coords.length + 1) / 2)) (iteration + 1)
          (fetchWithRetry all413 coordIndex
            (coords.take ((coords.length + 1) / 2)) (iteration + 1) acc).2).2) := by
  have hi : iteration < 5 := by push_neg at hg; omega
  rw [fetchWithRetry, dif_neg hg]
  simp only [all413]
  rw [if_pos ⟨trivial, hi⟩]

/-- Under the always-413 provider, a call at depth `iteration` issues
strictly fewer than `2 ^ (5 - iteration)` requests and leaves the
elevation map untouched. -/
lemma fetchWithRetry_all413_bound :
    ∀ (fuel iteration : ℕ), 5 - iteration ≤ fuel →
      ∀ (coordIndex : List ElevKey) (coords : List Coordinate) (acc : ElevMap),
        (fetchWithRetry all413 coordIndex coords iteration acc).1.length + 1
            ≤ 2 ^ (5 - iteration)
        ∧ (fetchWithRetry all413 coordIndex coords iteration acc).2 = acc := by
  intro fuel
  induction fuel with
  | zero =>
    intro iteration h coordIndex coords acc
    have h5 : 5 ≤ iteration := by omega
    rw [fetchWithRetry_stop coordIndex coords iteration acc (Or.inr h5)]
    exact ⟨Nat.one_le_two_pow, rfl⟩
  | succ fuel ih =>
    intro iteration h coordIndex coords acc
    by_cases hg : coords.isEmpty = true ∨ 5 ≤ iteration
    · rw [fetchWithRetry_stop coordIndex coords iteration acc hg]
      exact ⟨Nat.one_le_two_pow, rfl⟩
    · have hi : iteration < 5 := by push_neg at hg; omega
      rw [fetchWithRetry_413_step coordIndex coords iteration acc hg]
      obtain ⟨h11, h12⟩ := ih (iteration + 1) (by omega) coordIndex
        (coords.take ((coords.length + 1) / 2)) acc
      obtain ⟨h21, h22⟩ := ih (iteration + 1) (by omega) coordIndex
        (coords.drop ((coords.length + 1) / 2))
        ((fetchWithRetry all413 coordIndex
          (coords.take ((coords.length + 1) / 2)) (iteration + 1) acc).2)
      rw [h12] at h21 h22
      rw [h12]
      constructor
      · simp only [List.length_cons, List.length_append]
        have hpow : 2 ^ (5 - iteration) = 2 * 2 ^ (5 - (iteration + 1)) := by
          rw [show 5 - iteration = (5 - (iteration + 1)) + 1 from by omega,
            pow_succ]
          ring
        omega
      · exact h22

/-- C1: with every elevation request answered 413, `fetchElevations`
terminates (it is a total function), issues at most 31 requests in total,
issues none once the depth counter reaches 5 and drops that sub-batch
silently, and returns the empty elevation map. -/
theorem C1_fetchElevations_all413_bounded
    (coordinates : List Coordinate) (coordIndex : List ElevKey)
    (acc : ElevMap) (extra : ℕ) :
    (fetchElevations all413 coordinates).1.length ≤ 31
    ∧ (fetchElevations all413 coordinates).2 = []
    ∧ fetchWithRetry all413 coordIndex coordinates (5 + extra) acc = ([], acc)
    ∧ (fetchWithRetry all413 coordIndex coordinates 0 acc).2 = acc := by
  have main := fetchWithRetry_all413_bound 5
  refine ⟨?_, ?_, ?_, (main 0 (by omega) coordIndex coordinates acc).2⟩
  · by_cases hc : coordinates.isEmpty
    · simp [fetchElevations, hc]
    · have hlen := (main 0 (by omega) (coordIndexOf coordinates) coordinates []).1
      simp only [fetchElevations, if_neg hc]
      norm_num at hlen
      omega
  · by_cases hc : coordinates.isEmpty
    · simp [fetchElevations, hc]
    · simp only [fetchElevations, if_neg hc]
      exact (main 0 (by omega) (coordIndexOf coordinates) coordinates []).2
  · exact fetchWithRetry_stop coordIndex coordinates (5 + extra) acc
      (Or.inr (by omega))

end ClaimsGeo

section ClaimsQueue

open RequestQueue

/-- One queue step preserves the invariant: the resolver queue mirrors
the task queue, dispatch order is a prefix of submission order, and every
settled promise carries its own task's outcome. -/
lemma queue_invariant_step {ε ρ : Type} (outcome : ℕ → Except ε ρ)
    (a b : QState ε ρ) (hstep : Step outcome a b)
    (h1 : a.resolvers = a.queue)
    (h2 : a.dispatched ++ a.queue = List.range a.submitted)
    (h3 : a.settled = a.dispatched.map fun i => (i, outcome i)) :
    b.resolvers = b.queue
    ∧ b.dispatched ++ b.queue = List.range b.submitted
    ∧ b.settled = b.dispatched.map fun i => (i, outcome i) := by
  cases hstep with
  | add =>
    refine ⟨?_, ?_, h3⟩
    · show a.resolvers ++ [a.submitted] = a.queue ++ [a.submitted]
      rw [h1]
    · show a.dispatched ++ (a.queue ++ [a.submitted])
        = List.range (a.submitted + 1)
      rw [← List.append_assoc, h2, List.range_succ]
  | run i r q' rs hq hr =>
    rw [hq, hr] at h1
    injection h1 with hri hrs
    refine ⟨hrs, ?_, ?_⟩
    · show (a.dispatched ++ [i]) ++ q' = List.range a.submitted
      rw [List.append_assoc]
      rw [show ([i] ++ q' : List ℕ) = i :: q' from rfl, ← hq]
      exact h2
    · show a.settled ++ [(r, outcome i)]
        = (a.dispatched ++ [i]).map fun k => (k, outcome k)
      rw [List.map_append, h3, hri]
      rfl

/-- Invariant of every reachable queue state, by induction along the
trace. -/
lemma queue_invariant {ε ρ : Type} (outcome : ℕ → Except ε ρ) :
    ∀ s : QState ε ρ, Reachable outcome s →
      s.resolvers = s.queue
      ∧ s.dispatched ++ s.queue = List.range s.submitted
      ∧ s.settled = s.dispatched.map fun i => (i, outcome i) := by
  intro s h
  induction h with
  | refl => exact ⟨rfl, by simp [init], by simp [init]⟩
  | tail _ hstep ih =>
    obtain ⟨h1, h2, h3⟩ := ih
    exact queue_invariant_step outcome _ _ hstep h1 h2 h3

/-- C2: in every reachable state of the request queue, each settled
promise holds its own task's result or error, tasks are dispatched one at
a time in exact submission order (the dispatch list followed by the still
queued tasks is the full submission order), and whenever a task is at the
front of the queue a dispatch step exists regardless of any earlier
task's rejection. -/
theorem C2_requestQueue_fifo_and_isolation {ε ρ : Type}
    (outcome : ℕ → Except ε ρ) (s : QState ε ρ) (h : Reachable outcome s) :
    s.settled = s.dispatched.map (fun i => (i, outcome i))
    ∧ s.dispatched ++ s.queue = List.range s.submitted
    ∧ (∀ i q', s.queue = i :: q' →
        ∃ s', Step outcome s s'
          ∧ s'.dispatched = s.dispatched ++ [i]
          ∧ s'.settled = s.settled ++ [(i, outcome i)]) := by
  obtain ⟨h1, h2, h3⟩ := queue_invariant outcome s h
  refine ⟨h3, h2, ?_⟩
  intro i q' hq
  have hr : s.resolvers = i :: q' := by rw [h1, hq]
  exact ⟨_, Step.run s i i q' q' hq hr, rfl, rfl⟩

/-- C2 witness: two tasks where the first rejects; after both dispatches
the settled list pairs each promise with its own outcome, the dispatch
order is the submission order, and the second task was dispatched after
the first one's rejection. -/
theorem C2_requestQueue_fifo_and_isolation_witness :
    sF.settled = sF.dispatched.map (fun i => (i, outW i))
    ∧ sF.dispatched ++ sF.queue = List.range sF.submitted
    ∧ (∀ i q', sF.queue = i :: q' →
        ∃ s', Step outW sF s'
          ∧ s'.dispatched = sF.dispatched ++ [i]
          ∧ s'.settled = sF.settled ++ [(i, outW i)]) := by
  refine C2_requestQueue_fifo_and_isolation outW sF ?_
  have h1 : Step outW init (⟨1, [0], [0], [], []⟩ : QState String ℕ) :=
    Step.add init
  have h2 : Step outW (⟨1, [0], [0], [], []⟩ : QState String ℕ)
      ⟨2, [0, 1], [0, 1], [], []⟩ := Step.add _
  have h3 : Step outW (⟨2, [0, 1], [0, 1], [], []⟩ : QState String ℕ)
      ⟨2, [1], [1], [0], [(0, Except.error "rejected")]⟩ :=
    Step.run _ 0 0 [1] [1] rfl rfl
  have h4 : Step outW
      (⟨2, [1], [1], [0], [(0, Except.error "rejected")]⟩ : QState String ℕ)
      sF := Step.run _ 1 1 [] [] rfl rfl
  exact .tail (.tail (.tail (.tail .refl h1) h2) h3) h4

end ClaimsQueue

section ClaimsStore

open LayersStore

/-- Searching with `find?` over `updateFirst` with a predicate the update preserves:
updating the first match then searching finds the updated element. -/
lemma find?_updateFirst {β : Type} (p : β → Bool) (f : β → β)
    (hpf : ∀ a, p (f a) = p a) :
    ∀ l : List β, (updateFirst p f l).find? p = (l.find? p).map f := by
  intro l
  induction l with
  | nil => rfl
  | cons x xs ih =>
    by_cases hx : p x
    · rw [updateFirst, if_pos hx]
      rw [List.find?_cons_of_pos _ (by rw [hpf x]; exact hx)]
      rw [List.find?_cons_of_pos _ hx]
      rfl
    · rw [updateFirst, if_neg hx]
      rw [List.find?_cons_of_neg _ (by simpa using hx)]
      rw [List.find?_cons_of_neg _ (by simpa using hx)]
      exact ih

/-- Setting an element's `noteId` changes exactly what `getElement`
returns for that element. -/
lemma getElement_setElementNoteId (st : Store) (ty : ElementType)
    (eid : String) (nid : Option String) :
    getElement (setElementNoteId st ty eid nid) ty eid
      = (getElement st ty eid).map (fun e => e.withNoteId nid) := by
  cases ty with
  | circle =>
    simp only [getElement, setElementNoteId]
    rw [find?_updateFirst (fun c : CircleElement => c.id == eid)
      (fun c : CircleElement => { c with noteId := nid }) (fun a => rfl)]
    cases st.circles.find? fun c => c.id == eid <;> rfl
  | lineSegment =>
    simp only [getElement, setElementNoteId]
    rw [find?_updateFirst (fun s : LineSegmentElement => s.id == eid)
      (fun s : LineSegmentElement => { s with noteId := nid }) (fun a => rfl)]
    cases st.lineSegments.find? fun c => c.id == eid <;> rfl
  | point =>
    simp only [getElement, setElementNoteId]
    rw [find?_updateFirst (fun p : PointElement => p.id == eid)
      (fun p : PointElement => { p with noteId := nid }) (fun a => rfl)]
    cases st.points.find? fun c => c.id == eid <;> rfl

/-- Lemma: `setElementNoteId` leaves the note list alone. -/
lemma setElementNoteId_notes (st : Store) (ty : ElementType) (eid : String)
    (nid : Option String) : (setElementNoteId st ty eid nid).notes = st.notes := by
  cases ty <;> rfl

/-- Lemma: `setElementNoteId` leaves the warnings alone. -/
lemma setElementNoteId_warnings (st : Store) (ty : ElementType) (eid : String)
    (nid : Option String) :
    (setElementNoteId st ty eid nid).warnings = st.warnings := by
  cases ty <;> rfl

/-- Lemma: `getElement` ignores the notes and warnings fields. -/
lemma getElement_update_irrel (st : Store) (ty : ElementType) (eid : String)
    (notes : List NoteElement) (warnings : List String) :
    getElement { st with notes := notes, warnings := warnings } ty eid
      = getElement st ty eid := by
  cases ty <;> rfl

/-- Timestamp defaulting changes no field `linkNote` reads. -/
lemma withDefaultTimestamps_fields (now : ℕ) (B : NoteElement) :
    (withDefaultTimestamps now B).id = B.id
    ∧ (withDefaultTimestamps now B).linkedElementType = B.linkedElementType
    ∧ (withDefaultTimestamps now B).linkedElementId = B.linkedElementId := by
  unfold withDefaultTimestamps
  dsimp only
  split <;> split <;> exact ⟨rfl, rfl, rfl⟩

/-- Lemma: `withNoteId` writes the `noteId` field. -/
lemma noteId_withNoteId (e : Element) (nid : Option String) :
    (e.withNoteId nid).noteId = nid := by
  cases e <;> rfl

/-- C4 counterexample: starting from a store with one circle, adding note
`AW` linked to the circle and then note `BW` linked to the same circle
leaves `AW` in the store still carrying its link while the circle's
`noteId` is `BW`'s id — so the claimed invariant "every note that links
to an entity has that entity's `noteId` equal to the note's id" is false
after the second `addNote`. -/
theorem C4_counterexample_orphaned_note_breaks_I1 :
    ¬ I1 (addNote 2 BW (addNote 1 AW st0)) := by
  intro h
  have hmem : AW ∈ (addNote 2 BW (addNote 1 AW st0)).notes :=
    List.mem_cons_self AW [BW]
  have hget : getElement (addNote 2 BW (addNote 1 AW st0)) .circle "c"
      = some (Element.circleE
          { id := "c", name := "circle", center := ⟨0, 0⟩, radius := 1,
            createdAt := some 1, noteId := some "B" }) := rfl
  have hfalse := h AW hmem .circle "c" rfl rfl _ hget
  exact absurd hfalse (by decide)

/-- C4 amended: assigning a second note `B` to an entity already linked
to note `A` overwrites the link — afterwards the entity's `noteId` is
`B.id` (so the entity designates at most the one note `B`, for which the
bidirectional property holds), one warning is logged rather than an error
raised, and `A` still exists in the store as an orphaned note (its own
link fields are not cleared, which is what refutes the claim's universal
bidirectional clause). -/
theorem C4_amended_overwrite_link (st : Store) (ty : ElementType)
    (eid : String) (A B : NoteElement) (e : Element) (now : ℕ)
    (hA : A ∈ st.notes)
    (hAid : A.id ≠ "")
    (hgetE : getElement st ty eid = some e)
    (heN : e.noteId = some A.id)
    (hBty : B.linkedElementType = some ty)
    (hBid : B.linkedElementId = some eid)
    (heid : eid ≠ "")
    (hBidne : B.id ≠ "")
    (hne : B.id ≠ A.id) :
    getElement (addNote now B st) ty eid = some (e.withNoteId (some B.id))
    ∧ (e.withNoteId (some B.id)).noteId = some B.id
    ∧ A ∈ (addNote now B st).notes
    ∧ (∃ B', B' ∈ (addNote now B st).notes ∧ B'.id = B.id
        ∧ B'.linkedElementType = some ty ∧ B'.linkedElementId = some eid)
    ∧ (addNote now B st).warnings.length = st.warnings.length + 1 := by
  obtain ⟨hid, hty', hid'⟩ := withDefaultTimestamps_fields now B
  have hlink : linkNote (withDefaultTimestamps now B) st
      = setElementNoteId
          { st with warnings := st.warnings ++
              ["Element " ++ eid ++
               " already has a note. Replacing with new note."] }
          ty eid (some (withDefaultTimestamps now B).id) := by
    unfold linkNote
    rw [hty', hid', hBty, hBid]
    dsimp only
    have hcond : (eid != "" && (withDefaultTimestamps now B).id != "") = true := by
      simp [hid, bne_iff_ne, heid, hBidne]
    rw [if_pos hcond, hgetE]
    dsimp only
    have hwarn : (strTruthy e.noteId
        && e.noteId != some (withDefaultTimestamps now B).id) = true := by
      rw [heN, hid]
      simp only [strTruthy, Bool.and_eq_true, bne_iff_ne, ne_eq,
        Option.some.injEq]
      exact ⟨by simpa using hAid, fun hcc => hne hcc.symm⟩
    rw [if_pos hwarn]
  have haddNote : addNote now B st
      = { linkNote (withDefaultTimestamps now B) st with
          notes := (linkNote (withDefaultTimestamps now B) st).notes
            ++ [withDefaultTimestamps now B] } := rfl
  refine ⟨?_, noteId_withNoteId e _, ?_, ?_, ?_⟩
  · rw [haddNote]
    rw [show getElement { linkNote (withDefaultTimestamps now B) st with
          notes := (linkNote (withDefaultTimestamps now B) st).notes
            ++ [withDefaultTimestamps now B] } ty eid
        = getElement (linkNote (withDefaultTimestamps now B) st) ty eid
      from by cases ty <;> rfl]
    rw [hlink, hid, getElement_setElementNoteId]
    rw [show getElement { st with warnings := st.warnings ++
          ["Element " ++ eid ++
           " already has a note. Replacing with new note."] } ty eid
        = getElement st ty eid from by cases ty <;> rfl]
    rw [hgetE]
    rfl
  · rw [haddNote]
    show A ∈ (linkNote (withDefaultTimestamps now B) st).notes
      ++ [withDefaultTimestamps now B]
    rw [hlink, setElementNoteId_notes]
    exact List.mem_append_left _ hA
  · refine ⟨withDefaultTimestamps now B, ?_, hid, by rw [hty', hBty], by rw [hid', hBid]⟩
    rw [haddNote]
    exact List.mem_append_right _ (List.mem_singleton.mpr rfl)
  · rw [haddNote]
    show (linkNote (withDefaultTimestamps now B) st).warnings.length
      = st.warnings.length + 1
    rw [hlink, setElementNoteId_warnings]
    simp

/-- C4 witness: the concrete overwrite scenario — circle `"c"` linked to
note `AW`, then `addNote` of `BW` — instantiating the amended theorem. -/
theorem C4_amended_overwrite_link_witness :
    getElement (addNote 2 BW stW) .circle "c"
        = some ((Element.circleE cW).withNoteId (some "B"))
    ∧ ((Element.circleE cW).withNoteId (some "B")).noteId = some "B"
    ∧ AW ∈ (addNote 2 BW stW).notes
    ∧ (∃ B', B' ∈ (addNote 2 BW stW).notes ∧ B'.id = BW.id
        ∧ B'.linkedElementType = some .circle ∧ B'.linkedElementId = some "c")
    ∧ (addNote 2 BW stW).warnings.length = stW.warnings.length + 1 :=
  C4_amended_overwrite_link stW .circle "c" AW BW (Element.circleE cW) 2
    (List.mem_cons_self AW []) (by decide) rfl rfl rfl rfl (by decide)
    (by decide) (by decide)

end ClaimsStore

section ClaimsPolygon

open Geoportail

/-- Lemma: `zip` ignores a right-hand tail beyond the left list's length. -/
lemma zip_append_right_of_le {β γ : Type} :
    ∀ (l : List β) (l' : List γ) (t : List γ), l.length ≤ l'.length →
      l.zip (l' ++ t) = l.zip l' := by
  intro l
  induction l with
  | nil => intro l' t _; simp
  | cons x xs ih =>
    intro l' t h
    cases l' with
    | nil => simp at h
    | cons y ys =>
      simp only [List.cons_append, List.zip_cons_cons]
      rw [ih ys t (by simpa using h)]

/-- The last element of a nonempty list through `getLast?`. -/
lemma getLast?_cons_getLastD {β : Type} : ∀ (v : β) (vs : List β),
    (v :: vs).getLast? = some (vs.getLastD v) := by
  intro v vs
  induction vs generalizing v with
  | nil => rfl
  | cons u us ih => rw [List.getLast?_cons_cons, ih u, List.getLastD_cons]

/-- Zipping a snoc list against a shifted copy of itself peels the last
pair off. -/
lemma zip_snoc_cons {β : Type} : ∀ (vs : List β) (v w : β),
    (vs ++ [v]).zip (w :: vs) = vs.zip (w :: vs) ++ [(v, vs.getLastD w)] := by
  intro vs
  induction vs with
  | nil => intro v w; rfl
  | cons u us ih =>
    intro v w
    simp only [List.cons_append, List.zip_cons_cons, ih v u, List.getLastD_cons]

/-- The inside-flag fold of the ray-casting loop is the parity of the
number of crossing edges. -/
lemma foldl_toggle {γ : Type} (q : γ → Bool) :
    ∀ (l : List γ) (b : Bool),
      l.foldl (fun acc e => if q e then !acc else acc) b
        = (b != decide (l.countP q % 2 = 1)) := by
  intro l
  induction l with
  | nil => intro b; simp
  | cons e l ih =>
    intro b
    rw [List.foldl_cons, ih, List.countP_cons]
    cases hq : q e with
    | true =>
      rw [if_pos rfl]
      have hiff : ((l.countP q + 1) % 2 = 1) ↔ ¬(l.countP q % 2 = 1) := by omega
      rw [if_pos rfl, decide_eq_decide.mpr hiff, decide_not]
      cases b <;> cases hb : decide (l.countP q % 2 = 1) <;> rfl
    | false => simp

/-- A degenerate edge (both endpoints equal) never crosses the ray. -/
lemma edgeCrossing_self {α : Type} [LinearOrderedField α] (x y : α)
    (v : α × α) : edgeCrossing x y (v, v) = false := by
  simp [edgeCrossing]

/-- Closing a ring (repeating the first vertex as the last) does not
change the ray-cast: the extra edge is degenerate, and the wrap-around
edge merely moves to the end of the edge list. -/
lemma raycast_ring_closed {α : Type} [LinearOrderedField α] (x y : α)
    (v : α × α) (vs : List (α × α)) :
    raycast x y ((v :: vs) ++ [v]) = raycast x y (v :: vs) := by
  unfold raycast raycastPairs
  rw [getLast?_cons_getLastD v vs, List.getLast?_concat]
  dsimp only
  rw [show ((v :: vs) ++ [v] : List (α × α)) = v :: (vs ++ [v]) from rfl]
  rw [List.zip_cons_cons]
  rw [show (v :: (vs ++ [v]) : List (α × α)) = (v :: vs) ++ [v] from rfl]
  rw [zip_append_right_of_le (vs ++ [v]) (v :: vs) [v] (by simp)]
  rw [zip_snoc_cons vs v v]
  rw [List.zip_cons_cons]
  rw [foldl_toggle, foldl_toggle]
  have hcount :
      (((v, v) :: (vs.zip (v :: vs) ++ [(v, vs.getLastD v)])).countP
          (edgeCrossing x y))
        = (((v, vs.getLastD v) :: vs.zip (v :: vs)).countP
            (edgeCrossing x y)) := by
    simp only [List.countP_cons, List.countP_append, edgeCrossing_self,
      List.countP_nil, Bool.false_eq_true, if_false]
    omega
  rw [hcount]

/-- C7: `pointInPolygon` answers the same whether the exterior ring is
given open or closed (first vertex repeated as last); and on the square
(0,0),(0,2),(2,2),(2,0) it contains (1,1) and excludes (3,3). -/
theorem C7_pointInPolygon_ring_invariance_and_square :
    (∀ (α : Type) [LinearOrderedField α] (p v : α × α)
        (vs : List (α × α)) (rest : List (List (α × α))),
      pointInPolygon p (GeoJson.polygon ((v :: vs) :: rest))
        = pointInPolygon p (GeoJson.polygon (((v :: vs) ++ [v]) :: rest)))
    ∧ pointInPolygon ((1 : ℚ), (1 : ℚ))
        (GeoJson.polygon [[(0, 0), (0, 2), (2, 2), (2, 0)]]) = true
    ∧ pointInPolygon ((3 : ℚ), (3 : ℚ))
        (GeoJson.polygon [[(0, 0), (0, 2), (2, 2), (2, 0)]]) = false := by
  refine ⟨?_,
    by norm_num [pointInPolygon, pointInPolygonCoords, raycast, raycastPairs,
      edgeCrossing],
    by norm_num [pointInPolygon, pointInPolygonCoords, raycast, raycastPairs,
      edgeCrossing]⟩
  intro α instF p v vs rest
  exact (raycast_ring_closed p.1 p.2 v vs).symm

end ClaimsPolygon
